import Mathlib

/-!
Shallow embedding of the sol-reflection-token program
(src/.history/src/lib_20240205092409.rs) and verification of the
specification claims about it.

Machine integers are modelled as Nat with explicit reduction modulo 2^64
where the Rust u64 arithmetic can wrap.  Solana programs are built in
release mode, where u64 `+=` / `-=` wrap on overflow and underflow; the
wrapping operations below make that explicit.
-/

namespace SolReflection

/-- Modulus of u64 arithmetic, 2^64. -/
def U64LIM : Nat := 18446744073709551616

/-- Wrapping u64 addition, as in release-mode Rust `+=` on u64. -/
def wadd (a b : Nat) : Nat := (a + b) % U64LIM

/-- Wrapping u64 subtraction, as in release-mode Rust `-=` on u64
(for a u64 minuend this is exact subtraction when b ≤ a, and wraps
around 2^64 when b > a). -/
def wsub (a b : Nat) : Nat := (a + U64LIM - b % U64LIM) % U64LIM

/-- The ledger record, from `struct ReflectionToken { total_supply: u64,
balances: Vec<u64> }`. -/
structure ReflectionToken where
  total_supply : Nat
  balances : List Nat
deriving DecidableEq

/-- From `ReflectionToken::new`: `let balances = vec![0; total_supply as usize]`
(on the 64-bit target, usize = u64, so the length is exactly total_supply). -/
def ReflectionToken.new (total_supply : Nat) : ReflectionToken :=
  { total_supply := total_supply, balances := List.replicate total_supply 0 }

/-- From `ReflectionToken::transfer`:
  let reflection_amount = amount / 10;
  let fee = amount - reflection_amount;
  self.balances[sender_index] -= amount;
  self.balances[recipient_index] += amount - fee;
  self.balances[0] += reflection_amount;
Rust indexing panics out of bounds; here out-of-bounds reads default and
out-of-bounds writes are dropped, and every theorem about this function
carries in-bounds hypotheses, so only the in-bounds behaviour is relied on.
The three updates are sequential: the second read sees the first write,
and the third sees the first two, exactly as in the source. -/
def ReflectionToken.transfer (t : ReflectionToken)
    (sender_index recipient_index : Nat) (amount : Nat) : ReflectionToken :=
  let reflection_amount := amount / 10
  let fee := wsub amount reflection_amount
  let b1 := t.balances.set sender_index
    (wsub (t.balances.getD sender_index 0) amount)
  let b2 := b1.set recipient_index
    (wadd (b1.getD recipient_index 0) (wsub amount fee))
  let b3 := b2.set 0 (wadd (b2.getD 0 0) reflection_amount)
  { t with balances := b3 }

/-- Sanity: the spec scenario input.  Construct(3), balance 1 set to 100,
Transfer(1, 2, 100).  The code yields [10, 0, 10], not the [10, 0, 90]
the spec scenario expects. -/
example :
    (ReflectionToken.transfer ⟨3, [0, 100, 0]⟩ 1 2 100).balances
      = [10, 0, 10] := by decide

end SolReflection

namespace SolReflection

/-- C1: the claim says that after Transfer(sender, recipient, a) with
distinct nonzero in-bounds indices and a ≤ balances[sender], the recipient
gains a − a/10 and index 0 gains a/10.  On the code the recipient gains
`amount - fee` where `fee = amount - amount/10`, i.e. the recipient gains
only a/10: at the spec scenario balances [0, 100, 0], Transfer(1, 2, 100),
the code produces [10, 0, 10], not the claimed [10, 0, 90]. -/
theorem transfer_scenario_recipient_gets_tenth :
    (ReflectionToken.transfer ⟨3, [0, 100, 0]⟩ 1 2 100).balances = [10, 0, 10]
      ∧ ([10, 0, 10] : List Nat) ≠ [10, 0, 90] := by
  constructor
  · decide
  · decide

/-- C2: the claim says the sum of balances is conserved by every valid
transfer.  On the code the sum is not conserved: starting from
balances [0, 100, 0] (sum 100), Transfer(1, 2, 100) yields [10, 0, 10]
(sum 20): the transfer burns a − 2·(a/10). -/
theorem transfer_sum_not_conserved :
    ((ReflectionToken.transfer ⟨3, [0, 100, 0]⟩ 1 2 100).balances).sum
      ≠ ([0, 100, 0] : List Nat).sum := by
  decide

/-- C3: the claim says a transfer with amount exceeding the sender balance
fails with InsufficientBalance and leaves balances unchanged.  The code has
no such check and no error path at all: with balances [0, 5, 0] and
Transfer(1, 2, 10), the u64 subtraction wraps and the sender balance becomes
2^64 − 5 (release mode; a debug build panics instead). -/
theorem transfer_insufficient_balance_wraps :
    (ReflectionToken.transfer ⟨3, [0, 5, 0]⟩ 1 2 10).balances
      = [1, 18446744073709551611, 1] := by
  decide

/-- C5: Construct(total_supply) yields a ledger whose total_supply field is
the argument and whose balances list has length exactly total_supply with
every entry 0 (it is List.replicate total_supply 0); this includes
total_supply = 0, and the constructor has no error path. -/
theorem new_yields_zero_ledger (n : Nat) :
    (ReflectionToken.new n).total_supply = n
      ∧ (ReflectionToken.new n).balances.length = n
      ∧ (ReflectionToken.new n).balances = List.replicate n 0 := by
  refine ⟨rfl, ?_, rfl⟩
  simp [ReflectionToken.new]

end SolReflection

namespace SolReflection

/-- Wrapping u64 subtraction is exact subtraction when no underflow occurs. -/
theorem wsub_eq_sub {a b : Nat} (hba : b ≤ a) (ha : a < U64LIM) :
    wsub a b = a - b := by
  simp only [wsub, U64LIM] at *
  omega

/-- Wrapping u64 addition is exact addition when no overflow occurs. -/
theorem wadd_eq_add {a b : Nat} (h : a + b < U64LIM) :
    wadd a b = a + b := by
  simp only [wadd, U64LIM] at *
  omega

/-- Setting one index of a list leaves the default-read at any other index
unchanged. -/
theorem getD_set_ne (l : List Nat) (j i v : Nat) (h : i ≠ j) :
    (l.set j v).getD i 0 = l.getD i 0 := by
  simp [List.getElem?_set_ne (Ne.symm h)]

end SolReflection

namespace SolReflection

/-- C9 counterexample: the claim says a self-transfer at index 0 nets a
decrease of exactly a/10.  On the code, with ledger balances [100] and
Transfer(0, 0, 10), slot 0 ends at 92 (a decrease of 8 = a − 2·(a/10)), not
at 100 − 10/10 = 99. -/
theorem transfer_self_zero_claim_false :
    (ReflectionToken.transfer ⟨1, [100]⟩ 0 0 10).balances.getD 0 0 = 92
      ∧ (92 : Nat) ≠ 100 - 10 / 10 := by
  decide

/-- C9 amended: for a self-transfer at index 0 with nonzero amount
a ≤ balances[0] on a non-empty ledger, all three adjustments hit slot 0 and
the net effect is a decrease of exactly a − 2·(a/10) (the code credits the
recipient with a/10, not a − a/10). -/
theorem transfer_self_zero_net (t : ReflectionToken) (a : Nat)
    (hne : t.balances ≠ [])
    (ha0 : 0 < a)
    (hle : a ≤ t.balances.getD 0 0)
    (hb : t.balances.getD 0 0 < U64LIM) :
    (t.transfer 0 0 a).balances.getD 0 0
      = t.balances.getD 0 0 - (a - 2 * (a / 10)) := by
  obtain ⟨s, bal⟩ := t
  cases bal with
  | nil => exact absurd rfl hne
  | cons b rest =>
    simp only [List.getD_eq_getElem?_getD, List.getElem?_cons_zero,
      Option.getD_some] at hle hb ⊢
    have hq : a / 10 ≤ a := Nat.div_le_self a 10
    have h10 : a / 10 * 10 ≤ a := Nat.div_mul_le_self a 10
    have haL : a < U64LIM := lt_of_le_of_lt hle hb
    simp only [ReflectionToken.transfer, List.set_cons_zero,
      List.getD_eq_getElem?_getD, List.getElem?_cons_zero, Option.getD_some]
    rw [wsub_eq_sub hq haL]
    rw [wsub_eq_sub (Nat.sub_le a (a / 10)) haL]
    rw [wsub_eq_sub hle hb]
    rw [wadd_eq_add (show b - a + (a - (a - a / 10)) < U64LIM by
      simp only [U64LIM] at *; omega)]
    rw [wadd_eq_add (show b - a + (a - (a - a / 10)) + a / 10 < U64LIM by
      simp only [U64LIM] at *; omega)]
    omega

/-- C9 witness: the amended statement at the concrete ledger [100] with
amount 10: slot 0 ends at 100 − (10 − 2·1) = 92. -/
theorem transfer_self_zero_net_witness :
    (ReflectionToken.transfer ⟨1, [100]⟩ 0 0 10).balances.getD 0 0
      = 100 - (10 - 2 * (10 / 10)) :=
  transfer_self_zero_net ⟨1, [100]⟩ 10 (by decide) (by decide) (by decide)
    (by decide)

/-- C10: a transfer with in-bounds indices and sufficient sender balance
leaves every balance at an index other than the sender, the recipient and
index 0 unchanged, preserves the length of the balance list, and leaves the
total_supply field untouched. -/
theorem transfer_frame (t : ReflectionToken) (s r a i : Nat)
    (hs : s < t.balances.length) (hr : r < t.balances.length)
    (ha : a ≤ t.balances.getD s 0)
    (his : i ≠ s) (hir : i ≠ r) (hi0 : i ≠ 0) :
    (t.transfer s r a).balances.getD i 0 = t.balances.getD i 0
      ∧ (t.transfer s r a).balances.length = t.balances.length
      ∧ (t.transfer s r a).total_supply = t.total_supply := by
  refine ⟨?_, ?_, rfl⟩
  · simp only [ReflectionToken.transfer]
    rw [getD_set_ne _ _ _ _ hi0, getD_set_ne _ _ _ _ hir,
      getD_set_ne _ _ _ _ his]
  · simp [ReflectionToken.transfer]

/-- C10 witness: the frame property at the concrete ledger
[0, 100, 0, 7], Transfer(1, 2, 50), observed at index 3. -/
theorem transfer_frame_witness :
    (ReflectionToken.transfer ⟨4, [0, 100, 0, 7]⟩ 1 2 50).balances.getD 3 0
        = (⟨4, [0, 100, 0, 7]⟩ : ReflectionToken).balances.getD 3 0
      ∧ (ReflectionToken.transfer ⟨4, [0, 100, 0, 7]⟩ 1 2 50).balances.length
        = (⟨4, [0, 100, 0, 7]⟩ : ReflectionToken).balances.length
      ∧ (ReflectionToken.transfer ⟨4, [0, 100, 0, 7]⟩ 1 2 50).total_supply
        = (⟨4, [0, 100, 0, 7]⟩ : ReflectionToken).total_supply :=
  transfer_frame ⟨4, [0, 100, 0, 7]⟩ 1 2 50 3 (by decide) (by decide)
    (by decide) (by decide) (by decide) (by decide)

end SolReflection

namespace SolReflection

/-- Little-endian byte list (length k) of a number, as in
`u64::to_le_bytes` (k = 8) and the borsh u32 length prefix (k = 4);
truncates values that exceed k bytes, just as the cast does. -/
def toLEBytes : Nat → Nat → List Nat
  | 0, _ => []
  | k + 1, n => n % 256 :: toLEBytes k (n / 256)

/-- Value of a little-endian byte list, as in `u64::from_le_bytes`. -/
def fromLEBytes (bs : List Nat) : Nat :=
  bs.foldr (fun b acc => b % 256 + 256 * acc) 0

/-- Borsh-style read of a k-byte little-endian integer from the front of a
byte list, returning the value and the remaining bytes; fails when fewer
than k bytes remain. -/
def readLEValue (k : Nat) (bs : List Nat) : Option (Nat × List Nat) :=
  if k ≤ bs.length then some (fromLEBytes (bs.take k), bs.drop k) else none

/-- Borsh-style read of n consecutive u64 values. -/
def readU64List : Nat → List Nat → Option (List Nat × List Nat)
  | 0, bs => some ([], bs)
  | n + 1, bs =>
    match readLEValue 8 bs with
    | some (v, rest) =>
      match readU64List n rest with
      | some (vs, rest2) => some (v :: vs, rest2)
      | none => none
    | none => none

/-- From `ReflectionToken::try_from_slice` (derived borsh deserialization):
a u64 total_supply, a u32 element count, that many u64 balances, and the
requirement that the whole buffer is consumed. -/
def tryFromSlice (bs : List Nat) : Option ReflectionToken :=
  match readLEValue 8 bs with
  | some (supply, r1) =>
    match readLEValue 4 r1 with
    | some (len, r2) =>
      match readU64List len r2 with
      | some (vals, r3) =>
        if r3 = [] then some ⟨supply, vals⟩ else none
      | none => none
    | none => none
  | none => none

/-- From `token_data.serialize(...)` (derived borsh serialization): u64
total_supply, u32 element count, then each balance as a u64, all
little-endian. -/
def serializeBytes (t : ReflectionToken) : List Nat :=
  toLEBytes 8 t.total_supply ++ toLEBytes 4 t.balances.length
    ++ (t.balances.map (toLEBytes 8)).flatten

/-- One account handle, from solana AccountInfo: the capability flags, the
native balance, and the persisted data buffer (a byte list). -/
structure AccountInfo where
  is_signer : Bool
  is_writable : Bool
  lamports : Nat
  data : List Nat
deriving DecidableEq

/-- Placeholder handle used only to express out-of-range list reads; every
path that would use it returns the missing-account error first. -/
def defaultAccount : AccountInfo :=
  { is_signer := false, is_writable := false, lamports := 0, data := [] }

/-- The typed errors `process_instruction` can return
(solana ProgramError variants used by the source). -/
inductive ProgramError where
  | notEnoughAccountKeys
  | borshIoError
  | insufficientFunds
  | invalidArgument
  | invalidInstructionData
deriving DecidableEq

/-- Result of one invocation: clean success, a typed error returned to the
host, or a Rust panic (failed `unwrap` or out-of-range slice). -/
inductive Outcome where
  | success
  | failure (e : ProgramError)
  | panicked
deriving DecidableEq

/-- The byte literal b"initialize". -/
def initTag : List Nat := [105, 110, 105, 116, 105, 97, 108, 105, 122, 101]

/-- The byte literal b"transfer". -/
def transferTag : List Nat := [116, 114, 97, 110, 115, 102, 101, 114]

/-- From `d[off..].try_into().unwrap()` followed by `u64::from_le_bytes`:
slicing panics when off exceeds the length, and the conversion to [u8; 8]
panics unless exactly 8 bytes remain; both panics are `none` here. -/
def readU64At (off : Nat) (d : List Nat) : Option Nat :=
  if off ≤ d.length then
    if (d.drop off).length = 8 then some (fromLEBytes (d.drop off)) else none
  else none

end SolReflection

namespace SolReflection

/-- From `process_instruction` in the source.  The accounts list and the
instruction bytes come from the host; required_lamports stands for the
external sysvar value `Rent::get()?.minimum_balance(..)`.  Per the source
comment the first handle (the program account) is skipped, so the ledger
storage account is handle 1 and the transfer path uses handles 2 and 3.
The result pairs the invocation outcome with the final contents of the
storage account's data buffer; the serialization at the end of each
successful arm is the only write to that buffer, and a failed borsh write
into a too-small buffer leaves the prefix it managed to fill, as the
io::Write impl for byte slices does. -/
def process_instruction (accounts : List AccountInfo)
    (instruction_data : List Nat) (required_lamports : Nat) :
    Outcome × List Nat :=
  let token_account := accounts.getD 1 defaultAccount
  let buf := token_account.data
  if accounts.length < 2 then (.failure .notEnoughAccountKeys, buf)
  else
    match tryFromSlice buf with
    | none => (.failure .borshIoError, buf)
    | some token_data =>
      if instruction_data = initTag then
        if token_account.lamports < required_lamports then
          (.failure .insufficientFunds, buf)
        else
          match readU64At 8 instruction_data with
          | none => (.panicked, buf)
          | some supply =>
            let out := serializeBytes (ReflectionToken.new supply)
            if out.length ≤ buf.length then
              (.success, out ++ buf.drop out.length)
            else (.failure .borshIoError, out.take buf.length)
      else if instruction_data = transferTag then
        if accounts.length < 4 then (.failure .notEnoughAccountKeys, buf)
        else
          match readU64At 8 (accounts.getD 2 defaultAccount).data with
          | none => (.panicked, buf)
          | some sender_index =>
            match readU64At 8 (accounts.getD 3 defaultAccount).data with
            | none => (.panicked, buf)
            | some recipient_index =>
              match readU64At 16 instruction_data with
              | none => (.panicked, buf)
              | some amount =>
                if (accounts.getD 2 defaultAccount).is_signer = true
                    ∧ (accounts.getD 2 defaultAccount).is_writable = true
                    ∧ (accounts.getD 3 defaultAccount).is_writable = true
                    ∧ sender_index < token_data.balances.length
                    ∧ recipient_index < token_data.balances.length then
                  let out := serializeBytes
                    (token_data.transfer sender_index recipient_index amount)
                  if out.length ≤ buf.length then
                    (.success, out ++ buf.drop out.length)
                  else (.failure .borshIoError, out.take buf.length)
                else (.failure .invalidArgument, buf)
      else (.failure .invalidInstructionData, buf)

end SolReflection

namespace SolReflection

/-- C4: whenever the dispatcher returns one of the precondition failures
(unknown tag, capability or bounds check failed, underfunded initialize),
the storage account's data buffer is returned byte-for-byte unchanged:
the serialization write is the last action of each arm and is gated by
every prior check. -/
theorem dispatch_failure_preserves_buffer (accounts : List AccountInfo)
    (instr : List Nat) (required_lamports : Nat) (e : ProgramError)
    (h : (process_instruction accounts instr required_lamports).1
      = .failure e)
    (he : e = .invalidInstructionData ∨ e = .invalidArgument
      ∨ e = .insufficientFunds) :
    (process_instruction accounts instr required_lamports).2
      = (accounts.getD 1 defaultAccount).data := by
  rcases he with rfl | rfl | rfl <;>
    (simp only [process_instruction] at h ⊢
     repeat' split at h) <;>
    (try simp_all) <;>
    (repeat' split) <;>
    (try simp_all) <;>
    omega

/-- C4 witness: an unknown one-byte instruction against a storage account
holding a valid serialized empty ledger leaves its 12 bytes unchanged. -/
theorem dispatch_failure_preserves_buffer_witness :
    (process_instruction
        [defaultAccount,
         ⟨false, true, 1000, toLEBytes 8 0 ++ toLEBytes 4 0⟩]
        [99] 0).2
      = (([defaultAccount,
           ⟨false, true, 1000, toLEBytes 8 0 ++ toLEBytes 4 0⟩] :
            List AccountInfo).getD 1 defaultAccount).data :=
  dispatch_failure_preserves_buffer
    [defaultAccount, ⟨false, true, 1000, toLEBytes 8 0 ++ toLEBytes 4 0⟩]
    [99] 0 .invalidInstructionData (by decide) (Or.inl rfl)

/-- C6: the claim says too-short instruction or account buffers fail with a
MalformedInput condition and never panic.  On the code, an instruction
buffer can only enter the transfer arm by being exactly the 8-byte tag
b"transfer", and the amount read then slices bytes 16.. of that 8-byte
buffer, which panics; likewise a sender account buffer shorter than the 16
bytes needed for the index read makes the index read panic. -/
theorem dispatch_short_buffers_panic :
    (process_instruction
        [defaultAccount,
         ⟨false, true, 1000, toLEBytes 8 0 ++ toLEBytes 4 0⟩,
         ⟨true, true, 0, List.replicate 16 0⟩,
         ⟨false, true, 0, List.replicate 16 0⟩]
        transferTag 0).1 = .panicked
      ∧ (process_instruction
          [defaultAccount,
           ⟨false, true, 1000, toLEBytes 8 0 ++ toLEBytes 4 0⟩,
           ⟨true, true, 0, [7]⟩,
           ⟨false, true, 0, List.replicate 16 0⟩]
          transferTag 0).1 = .panicked := by
  constructor
  · decide
  · decide

/-- C7: the claim says any buffer carrying the literal tag b"initialize"
followed by a little-endian u64 in bytes 8..16 is recognized, with the
total supply read from those bytes.  On the code the match requires the
instruction buffer to be exactly the 10-byte tag, so a 16-byte buffer
laid out as the spec describes is rejected as an unknown instruction; and
the only accepted buffer (the bare tag) panics when bytes 8.. (two bytes)
are converted to [u8; 8] for the supply read. -/
theorem dispatch_initialize_layout_unrecognized :
    (process_instruction
        [defaultAccount,
         ⟨false, true, 1000, toLEBytes 8 0 ++ toLEBytes 4 0⟩]
        (initTag ++ [7, 0, 0, 0, 0, 0]) 0).1
      = .failure .invalidInstructionData
      ∧ (process_instruction
          [defaultAccount,
           ⟨false, true, 1000, toLEBytes 8 0 ++ toLEBytes 4 0⟩]
          initTag 0).1 = .panicked := by
  constructor
  · decide
  · decide

/-- C8: the claim says an Initialize on a funded account succeeds and
overwrites the buffer without requiring the prior content to be a valid
serialized ledger.  On the code the storage buffer is deserialized before
the instruction tag is even inspected, so invalid prior bytes [5, 5] make
Initialize fail with the borsh error; and with valid prior bytes the arm
still never reaches the write, panicking on the supply read. -/
theorem dispatch_initialize_needs_valid_prior_bytes :
    (process_instruction [defaultAccount, ⟨false, true, 1000, [5, 5]⟩]
        initTag 0).1 = .failure .borshIoError
      ∧ (process_instruction
          [defaultAccount,
           ⟨false, true, 1000, toLEBytes 8 3 ++ toLEBytes 4 3
             ++ toLEBytes 8 0 ++ toLEBytes 8 0 ++ toLEBytes 8 0⟩]
          initTag 0).1 = .panicked := by
  constructor
  · decide
  · decide

end SolReflection
